/-
Verification of the tenant-routing CNI wrapper (azalio/kubeCon-cni-wrapper).

Shallow embedding of the repository's core units:
  * `parseCNIArgs` / `cmdAdd` / `cmdDel` / `cmdCheck` (main package dispatcher),
  * `Result.ExtractPodIP` (pkg/result),
  * `Iptables.AddMarkRule` / `DeleteMarkRule` / `RuleExists` (pkg/iptables),
  * `K8s.GetFwmark` (pkg/k8s),
  * `Net.ParseIP`, a model of Go's net.ParseIP (netip.ParseAddr semantics,
    Go >= 1.17: leading zeros in IPv4 fields rejected, zoned IPv6 rejected).

External collaborators (the delegated CNI binary, the Kubernetes API, the
iptables tool) are modelled as an environment of per-invocation outcomes; the
dispatcher additionally records an event trace so that "the delegate was never
invoked" style properties are expressible.
-/
import Mathlib

namespace CniWrapper

/-- Decidable equality for `Except`, so that concrete runs of the embedded
functions can be checked with `decide`. -/
instance {ε α : Type _} [DecidableEq ε] [DecidableEq α] : DecidableEq (Except ε α) := fun x y =>
  match x, y with
  | .ok a, .ok b => if h : a = b then .isTrue (by simp [h]) else .isFalse (by simp [h])
  | .error a, .error b => if h : a = b then .isTrue (by simp [h]) else .isFalse (by simp [h])
  | .ok _, .error _ => .isFalse (by simp)
  | .error _, .ok _ => .isFalse (by simp)

/-! ## Go net.IP model

A Go `net.IP` is a byte slice; we model it as a list of byte values. -/

/-- A Go net.IP value: the underlying byte slice (4 or 16 bytes for real
addresses; arbitrary lists representable since Go slices are untyped here). -/
abbrev NetIP := List Nat

/-- Go `net.IP.To4`: returns the 4-byte form when the address is a 4-byte
slice or a 16-byte IPv4-in-IPv6 slice (ten zero bytes then 0xff 0xff), and
nil (`none`) otherwise. -/
def ipTo4 : NetIP → Option NetIP
  | [a, b, c, d] => some [a, b, c, d]
  | [0, 0, 0, 0, 0, 0, 0, 0, 0, 0, 0xff, 0xff, a, b, c, d] => some [a, b, c, d]
  | _ => none

/-! ## pkg/result: ExtractPodIP -/

/-- The delegate's CNI result payload, a closed variant over the two wire
formats the code type-switches on (`*types100.Result`, `*types040.Result`),
plus a catch-all for any other implementation of `types.Result`.  Each entry
of the `IPs` list carries `ipConfig.Address.IP`, which may be a nil slice
(`none`). -/
inductive CNIResult where
  | r100 (ips : List (Option NetIP))
  | r040 (ips : List (Option NetIP))
  | other
  deriving DecidableEq, Repr

/-- Errors of `ExtractPodIP`; one constructor per distinct error message in
pkg/result. -/
inductive ExtractErr where
  /-- "CNI result is nil" -/
  | nilResult
  /-- "unsupported CNI result type: %T" -/
  | unsupportedType
  /-- "CNI result contains no IP addresses" -/
  | noIPs
  /-- "CNI result contains no IPv4 addresses (only IPv6)" -/
  | noIPv4
  deriving DecidableEq, Repr

/-- The scan loop shared by `extractIPv4FromResult100`/`...040`: iterate the
IPs in order, skip nil IPs, return the first whose `To4` is non-nil. -/
def scanIPv4 : List (Option NetIP) → Except ExtractErr NetIP
  | [] => .error .noIPv4
  | none :: rest => scanIPv4 rest
  | some ip :: rest =>
    match ipTo4 ip with
    | some _ => .ok ip
    | none => scanIPv4 rest

/-- `extractIPv4FromResult100` from pkg/result: empty IPs list is the
"no IP addresses" error; otherwise scan for the first IPv4. -/
def extractIPv4FromResult100 (ips : List (Option NetIP)) : Except ExtractErr NetIP :=
  if ips.length = 0 then .error .noIPs
  else scanIPv4 ips

/-- `extractIPv4FromResult040` from pkg/result: same body as the 1.0.0
variant, duplicated in the source per wire format. -/
def extractIPv4FromResult040 (ips : List (Option NetIP)) : Except ExtractErr NetIP :=
  if ips.length = 0 then .error .noIPs
  else scanIPv4 ips

/-- `result.ExtractPodIP`: nil check, then the two type assertions in order,
then the unsupported-type error.  (The Go code returns `ip.String()`; we
return the selected `net.IP` value itself, string rendering being outside
the model.) -/
def ExtractPodIP : Option CNIResult → Except ExtractErr NetIP
  | none => .error .nilResult
  | some (.r100 ips) => extractIPv4FromResult100 ips
  | some (.r040 ips) => extractIPv4FromResult040 ips
  | some .other => .error .unsupportedType

/-- `result.IsIPv4` helper from pkg/result. -/
def IsIPv4 (ip : Option NetIP) : Bool :=
  match ip with
  | none => false
  | some bs => (ipTo4 bs).isSome

/-! ## main package: parseCNIArgs -/

/-- Go `strings.Split(s, ";")` for the one-character separator, on character
lists: splits at every separator occurrence; the empty string yields one
empty piece. -/
def goSplit (sep : Char) : List Char → List (List Char)
  | [] => [[]]
  | c :: rest =>
    if c = sep then [] :: goSplit sep rest
    else
      match goSplit sep rest with
      | [] => [[c]]
      | piece :: pieces => (c :: piece) :: pieces

/-- Split a pair at its first `=`, returning key and value; `none` when the
pair contains no `=`.  This is Go `strings.SplitN(pair, "=", 2)` (reported
as a two-element slice exactly when a `=` is present). -/
def breakAtEq : List Char → Option (List Char × List Char)
  | [] => none
  | c :: rest =>
    if c = '=' then some ([], rest)
    else (breakAtEq rest).map (fun kv => (c :: kv.1, kv.2))

/-- The scan over `;`-separated pairs in `parseCNIArgs`: pairs without a `=`
are skipped (`len(kv) != 2`), and a later `K8S_POD_NAME` /
`K8S_POD_NAMESPACE` assignment overwrites an earlier one (Go assigns on
every match). -/
def scanPairs : List (List Char) → String × String → String × String
  | [], acc => acc
  | pair :: rest, (podName, podNamespace) =>
    match breakAtEq pair with
    | some (k, v) =>
      if k = "K8S_POD_NAME".data then scanPairs rest (⟨v⟩, podNamespace)
      else if k = "K8S_POD_NAMESPACE".data then scanPairs rest (podName, ⟨v⟩)
      else scanPairs rest (podName, podNamespace)
    | none => scanPairs rest (podName, podNamespace)

/-- The pod identity (`podName`, `podNamespace`) that the `parseCNIArgs`
loop computes for a given `CNI_ARGS` string. -/
def argsPodIdentity (cniArgs : String) : String × String :=
  scanPairs (goSplit ';' cniArgs.data) ("", "")

/-- First component of `argsPodIdentity`: the pod name found in `CNI_ARGS`
(empty when absent). -/
def argsPodName (cniArgs : String) : String := (argsPodIdentity cniArgs).1

/-- Second component of `argsPodIdentity`: the pod namespace found in
`CNI_ARGS` (empty when absent). -/
def argsPodNamespace (cniArgs : String) : String := (argsPodIdentity cniArgs).2

/-- Errors of `parseCNIArgs`, one per error message in the source. -/
inductive ArgsErr where
  /-- "CNI_ARGS is empty" -/
  | emptyArgs
  /-- "K8S_POD_NAME not found in CNI_ARGS" -/
  | podNameMissing
  /-- "K8S_POD_NAMESPACE not found in CNI_ARGS" -/
  | podNamespaceMissing
  deriving DecidableEq, Repr

/-- `parseCNIArgs` from the main package: reject empty `CNI_ARGS`, scan the
pairs, reject when either identity component ends up empty. -/
def parseCNIArgs (cniArgs : String) : Except ArgsErr (String × String) :=
  if cniArgs = "" then .error .emptyArgs
  else
    let (podName, podNamespace) := argsPodIdentity cniArgs
    if podName = "" then .error .podNameMissing
    else if podNamespace = "" then .error .podNamespaceMissing
    else .ok (podName, podNamespace)

example : parseCNIArgs "K8S_POD_NAME=web;K8S_POD_NAMESPACE=production" = .ok ("web", "production") := by decide
example : parseCNIArgs "K8S_POD_NAMESPACE=production" = .error .podNameMissing := by decide
example : parseCNIArgs "" = .error .emptyArgs := by decide
example : parseCNIArgs "K8S_POD_NAME=a=b;K8S_POD_NAMESPACE=c" = .ok ("a=b", "c") := by decide
example : parseCNIArgs "K8S_POD_NAME=a;K8S_POD_NAME=" = .error .podNameMissing := by decide
example : argsPodIdentity "" = ("", "") := by decide

/-! ## Go net.ParseIP model

`pkg/iptables` validates addresses with `net.ParseIP`.  Since Go 1.18,
`net.ParseIP` delegates to `netip.ParseAddr` and additionally rejects zoned
IPv6 addresses; we follow that algorithm (so IPv4 fields with leading zeros
are rejected, as in Go >= 1.17).  A `%` makes the whole parse fail here,
which agrees with `net.ParseIP`'s nil result on zoned input. -/

namespace Net

/-- `parseIPv4` field loop from netip: decimal fields, 1-3 digits, no
leading zero, value <= 255, exactly four fields.  State: `val` is the field
being accumulated, `digLen` its digit count so far, `fields` the completed
fields. -/
def parseIPv4Loop : List Char → Nat → Nat → List Nat → Option (List Nat)
  | [], val, _, fields =>
    if fields.length < 3 then none
    else some (fields ++ [val])
  | c :: rest, val, digLen, fields =>
    if '0' ≤ c ∧ c ≤ '9' then
      if digLen = 1 ∧ val = 0 then none
      else
        let val' := val * 10 + (c.toNat - '0'.toNat)
        if val' > 255 then none
        else parseIPv4Loop rest val' (digLen + 1) fields
    else if c = '.' then
      if digLen = 0 then none
      else if rest = [] then none
      else if fields.length = 3 then none
      else parseIPv4Loop rest 0 0 (fields ++ [val])
    else none

/-- netip `parseIPv4`: parse a dotted-quad IPv4 address to its four bytes. -/
def parseIPv4 (s : List Char) : Option (List Nat) :=
  parseIPv4Loop s 0 0 []

/-- Value of a hexadecimal digit character, `none` for non-hex characters. -/
def hexDigitVal (c : Char) : Option Nat :=
  if '0' ≤ c ∧ c ≤ '9' then some (c.toNat - '0'.toNat)
  else if 'a' ≤ c ∧ c ≤ 'f' then some (c.toNat - 'a'.toNat + 10)
  else if 'A' ≤ c ∧ c ≤ 'F' then some (c.toNat - 'A'.toNat + 10)
  else none

/-- The hex-group loop of netip `parseIPv6`: consume leading hex digits,
returning the accumulated value, the number of digits consumed, and the
rest; `none` when a fifth digit appears (group too long). -/
def takeHexGroup : List Char → Nat → Nat → Option (Nat × Nat × List Char)
  | [], acc, off => some (acc, off, [])
  | c :: rest, acc, off =>
    match hexDigitVal c with
    | none => some (acc, off, c :: rest)
    | some d =>
      if off > 3 then none
      else takeHexGroup rest (acc * 16 + d) (off + 1)

/-- The main loop of netip `parseIPv6`.  `fuel` bounds the recursion (each
iteration consumes at least one character, so `s.length + 1` is enough);
`ip` is the byte sequence built so far, `ell` the ellipsis position.
Returns the state at loop exit: bytes, ellipsis position, unconsumed rest. -/
def v6Loop : Nat → List Char → List Nat → Option Nat →
    Option (List Nat × Option Nat × List Char)
  | 0, _, _, _ => none
  | fuel + 1, s, ip, ell =>
    if ip.length ≥ 16 then some (ip, ell, s)
    else
      match takeHexGroup s 0 0 with
      | none => none
      | some (acc, off, rest) =>
        if off = 0 then none
        else
          match rest with
          | '.' :: _ =>
            -- Embedded IPv4: must replace the final two fields (or follow
            -- an ellipsis); the whole remaining string (from the start of
            -- this group) is parsed as IPv4.
            if ell = none ∧ ip.length ≠ 12 then none
            else if ip.length + 4 > 16 then none
            else
              match parseIPv4 s with
              | none => none
              | some ip4 => some (ip ++ ip4, ell, [])
          | _ =>
            let ip' := ip ++ [acc / 256, acc % 256]
            match rest with
            | [] => some (ip', ell, [])
            | ':' :: [] => none
            | ':' :: ':' :: rest2 =>
              if ell ≠ none then none
              else if rest2 = [] then some (ip', some ip'.length, [])
              else v6Loop fuel rest2 ip' (some ip'.length)
            | ':' :: rest2 => v6Loop fuel rest2 ip' ell
            | _ => none

/-- End-of-loop handling of netip `parseIPv6`: the whole string must be
consumed; a short address needs an ellipsis, expanded as a block of zero
bytes at the recorded position; a full 16-byte address must not also carry
an ellipsis. -/
def finishV6 : Option (List Nat × Option Nat × List Char) → Option (List Nat)
  | none => none
  | some (ip, ell, s) =>
    if s ≠ [] then none
    else if ip.length < 16 then
      match ell with
      | none => none
      | some e => some (ip.take e ++ List.replicate (16 - ip.length) 0 ++ ip.drop e)
    else
      match ell with
      | some _ => none
      | none => some ip

/-- netip `parseIPv6`: optional leading `::` (alone denoting the
unspecified address), then the group loop and the ellipsis expansion. -/
def parseIPv6 (s : List Char) : Option (List Nat) :=
  match s with
  | ':' :: ':' :: rest =>
    if rest = [] then some (List.replicate 16 0)
    else finishV6 (v6Loop (rest.length + 1) rest [] (some 0))
  | _ => finishV6 (v6Loop (s.length + 1) s [] none)

/-- `net.ParseIP`: scan for the first `.` or `:` to pick the family parser
(netip `ParseAddr`); `%` (a zone, or a missing address before a zone) makes
the parse fail, matching `net.ParseIP`'s rejection of zoned addresses.
Returns the address bytes, or `none` exactly when Go returns a nil IP. -/
def ParseIP (s : String) : Option (List Nat) :=
  scan s.data
where
  scan : List Char → Option (List Nat)
    | [] => none
    | c :: rest =>
      if c = '.' then parseIPv4 s.data
      else if c = ':' then parseIPv6 s.data
      else if c = '%' then none
      else scan rest

example : ParseIP "10.200.1.5" = some [10, 200, 1, 5] := by decide
example : ParseIP "0.0.0.0" = some [0, 0, 0, 0] := by decide
example : ParseIP "255.255.255.255" = some [255, 255, 255, 255] := by decide
example : ParseIP "256.1.1.1" = none := by decide
example : ParseIP "01.2.3.4" = none := by decide
example : ParseIP "1.2.3" = none := by decide
example : ParseIP "1.2.3.4.5" = none := by decide
example : ParseIP "" = none := by decide
example : ParseIP " 10.0.0.1" = none := by decide
example : ParseIP "10.0.0.1; rm -rf /" = none := by decide
example : ParseIP "$(reboot)" = none := by decide
example : ParseIP "::" = some (List.replicate 16 0) := by decide
example : ParseIP "::1" = some [0,0,0,0,0,0,0,0,0,0,0,0,0,0,0,1] := by decide
example : ParseIP "2001:db8::1" =
    some [0x20, 0x01, 0x0d, 0xb8, 0, 0, 0, 0, 0, 0, 0, 0, 0, 0, 0, 1] := by decide
example : ParseIP "fe80::1%eth0" = none := by decide
example : ParseIP "1::2::3" = none := by decide
example : ParseIP "::ffff:1.2.3.4" =
    some [0,0,0,0,0,0,0,0,0,0,0xff,0xff,1,2,3,4] := by decide
example : ParseIP "1:2:3:4:5:6:7:8" =
    some [0,1,0,2,0,3,0,4,0,5,0,6,0,7,0,8] := by decide
example : ParseIP "1:2:3:4:5:6:7" = none := by decide
example : ParseIP "1:2:3:4:5:6:7:8:9" = none := by decide
example : ParseIP "12345::" = none := by decide
example : ParseIP "1:2:3:4:5:6:1.2.3.4" =
    some [0,1,0,2,0,3,0,4,0,5,0,6,1,2,3,4] := by decide
example : ParseIP "1:2:3:4:5:1.2.3.4" = none := by decide
example : ParseIP "::%eth0" = none := by decide

end Net

/-! ## pkg/iptables: mark-rule manager

Per the design notes, the host rule table (mangle/PREROUTING) is modelled as
an injected in-memory table; go-iptables `Exists`/`Append`/`Delete` act on
it (each call also recorded as a tool operation, so "the external rule tool
was never invoked" is expressible).  A rule is identified by its rulespec,
i.e. by the `(podIP, fwmark)` strings used verbatim in
`-s podIP -j MARK --set-mark fwmark`. -/

namespace Iptables

/-- Go `strings.TrimSpace`: trim leading and trailing Unicode white space
(the `White_Space` property: 0x09-0x0D, space, NEL, NBSP, and the Unicode
space separators). -/
def goIsSpace (c : Char) : Bool :=
  c = ' ' ∨ c = '\t' ∨ c = '\n' ∨ c = '\x0b' ∨ c = '\x0c' ∨ c = '\r' ∨
  c = '\x85' ∨ c = '\xa0' ∨ c = '\u1680' ∨
  ('\u2000' ≤ c ∧ c ≤ '\u200a') ∨ c = '\u2028' ∨ c = '\u2029' ∨
  c = '\u202f' ∨ c = '\u205f' ∨ c = '\u3000'

/-- Go `strings.TrimSpace` on a string. -/
def goTrimSpace (s : String) : String :=
  ⟨((s.data.dropWhile goIsSpace).reverse.dropWhile goIsSpace).reverse⟩

/-- Go `strings.ToLower`, restricted to the ASCII mapping.  (Go lowers every
rune by its Unicode simple mapping; no character outside A-Z lowers to an
ASCII `x` or to a digit, so membership in the all-ASCII allow-list
`{0x10, 0x20}` is unaffected by the restriction.) -/
def goToLower (s : String) : String :=
  ⟨s.data.map (fun c => if 'A' ≤ c ∧ c ≤ 'Z' then Char.ofNat (c.toNat + 32) else c)⟩

/-- `FwmarkTenantA` from pkg/iptables. -/
def FwmarkTenantA : String := "0x10"

/-- `FwmarkTenantB` from pkg/iptables. -/
def FwmarkTenantB : String := "0x20"

/-- Errors of the pkg/iptables entry points, one per distinct error
message (tool failures do not arise in the in-memory table model). -/
inductive IptablesErr where
  /-- "podIP cannot be empty" -/
  | emptyPodIP
  /-- "invalid IP address format: %s" -/
  | invalidIPFormat (podIP : String)
  /-- "invalid fwmark %q: must be 0x10 (Tenant A) or 0x20 (Tenant B) ..." -/
  | invalidFwmark (fwmark : String)
  deriving DecidableEq, Repr

/-- `validateFwmark` from pkg/iptables: the value is trimmed and lowercased
before comparison against the two allowed constants; the error carries the
original string. -/
def validateFwmark (fwmark : String) : Except IptablesErr Unit :=
  let normalized := goToLower (goTrimSpace fwmark)
  if normalized ≠ FwmarkTenantA ∧ normalized ≠ FwmarkTenantB then
    .error (.invalidFwmark fwmark)
  else .ok ()

/-- The mangle/PREROUTING chain contents: rules in order, each identified
by its `(podIP, fwmark)` rulespec. -/
abbrev RuleTable := List (String × String)

/-- One operation against the external iptables tool: manager
initialization (`iptables.New`), an existence query, an append, or a
delete. -/
inductive ToolOp where
  | initManager
  | existsQuery (podIP fwmark : String)
  | appendRule (podIP fwmark : String)
  | deleteRule (podIP fwmark : String)
  deriving DecidableEq, Repr

/-- `AddMarkRule` from pkg/iptables: validate the pod IP (non-empty after
trimming, parses with `net.ParseIP`) and the fwmark, all before any tool
use; then initialize the manager, query existence, and append only when the
rule is absent.  Returns the call's outcome, the table after the call, and
the tool operations performed. -/
def AddMarkRule (chain : RuleTable) (podIP fwmark : String) :
    Except IptablesErr Unit × RuleTable × List ToolOp :=
  if goTrimSpace podIP = "" then (.error .emptyPodIP, chain, [])
  else if (Net.ParseIP podIP) = none then (.error (.invalidIPFormat podIP), chain, [])
  else
    match validateFwmark fwmark with
    | .error e => (.error e, chain, [])
    | .ok () =>
      if (podIP, fwmark) ∈ chain then
        (.ok (), chain, [.initManager, .existsQuery podIP fwmark])
      else
        (.ok (), chain ++ [(podIP, fwmark)],
          [.initManager, .existsQuery podIP fwmark, .appendRule podIP fwmark])

/-- `RuleExists` from pkg/iptables: same validation, then an existence
query only. -/
def RuleExists (chain : RuleTable) (podIP fwmark : String) :
    Except IptablesErr Bool × RuleTable × List ToolOp :=
  if goTrimSpace podIP = "" then (.error .emptyPodIP, chain, [])
  else if (Net.ParseIP podIP) = none then (.error (.invalidIPFormat podIP), chain, [])
  else
    match validateFwmark fwmark with
    | .error e => (.error e, chain, [])
    | .ok () =>
      (.ok (decide ((podIP, fwmark) ∈ chain)), chain,
        [.initManager, .existsQuery podIP fwmark])

/-- `DeleteMarkRule` from pkg/iptables: same validation, then query
existence and delete (the first matching rule, as `iptables -D` does) only
when present. -/
def DeleteMarkRule (chain : RuleTable) (podIP fwmark : String) :
    Except IptablesErr Unit × RuleTable × List ToolOp :=
  if goTrimSpace podIP = "" then (.error .emptyPodIP, chain, [])
  else if (Net.ParseIP podIP) = none then (.error (.invalidIPFormat podIP), chain, [])
  else
    match validateFwmark fwmark with
    | .error e => (.error e, chain, [])
    | .ok () =>
      if (podIP, fwmark) ∈ chain then
        (.ok (), chain.erase (podIP, fwmark),
          [.initManager, .existsQuery podIP fwmark, .deleteRule podIP fwmark])
      else
        (.ok (), chain, [.initManager, .existsQuery podIP fwmark])

example : AddMarkRule [] "10.200.1.5" "0x10" =
    (.ok (), [("10.200.1.5", "0x10")],
     [.initManager, .existsQuery "10.200.1.5" "0x10", .appendRule "10.200.1.5" "0x10"]) := by decide
example : (AddMarkRule [] "" "0x10").1 = .error .emptyPodIP := by decide
example : (AddMarkRule [] "10.0.0.1" "0x30").1 = .error (.invalidFwmark "0x30") := by decide
example : (AddMarkRule [] "10.0.0.1" "0X10").1 = .ok () := by decide
example : (DeleteMarkRule [("10.200.1.5", "0x10")] "10.200.1.5" "0x10").2.1 = [] := by decide

end Iptables

/-! ## pkg/k8s: annotation resolver -/

namespace K8s

/-- The key set of `ValidFwmarkValues` from pkg/k8s (a Go map; its
iteration order is unspecified, so only the set of values matters). -/
def ValidFwmarkValues : List String := ["0x10", "0x20"]

/-- `validateFwmark` from pkg/k8s: exact membership in
`ValidFwmarkValues` (no trimming or case normalization here, unlike
pkg/iptables). -/
def validateFwmark (fwmark : String) : Bool :=
  fwmark ∈ ValidFwmarkValues

/-- Outcome of one Kubernetes GET: the object with its annotations, a
NotFound error, or any other API error. -/
inductive ApiGet where
  | ok (annotations : List (String × String))
  | notFound
  | failed
  deriving DecidableEq, Repr

/-- The two GETs `GetFwmark` can issue for one invocation: the pod object
and the namespace object. -/
structure K8sEnv where
  pod : ApiGet
  ns : ApiGet
  deriving DecidableEq, Repr

/-- Errors of `GetFwmark`, one per distinct error message in pkg/k8s. -/
inductive FwmarkErr where
  /-- "pod %s/%s not found: %w" -/
  | podNotFound
  /-- "failed to get pod %s/%s: %w" -/
  | podGetFailed
  /-- "namespace %s not found: %w" -/
  | nsNotFound
  /-- "failed to get namespace %s: %w" -/
  | nsGetFailed
  /-- "invalid fwmark in pod annotation: %w" -/
  | invalidPodFwmark (value : String)
  /-- "invalid fwmark in namespace annotation: %w" -/
  | invalidNsFwmark (value : String)
  deriving DecidableEq, Repr

/-- Go map indexing `annotations[key]` with the comma-ok form, on an
association list (first match; Go map keys are unique). -/
def lookupAnnot (annotations : List (String × String)) (key : String) : Option String :=
  match annotations with
  | [] => none
  | (k, v) :: rest => if k = key then some v else lookupAnnot rest key

/-- `GetFwmark` from pkg/k8s: fetch the pod (NotFound distinguished from
other failures); if it carries the annotation key, validate and return the
value; otherwise fetch the namespace and repeat; if neither carries the
key, return the empty string with no error. -/
def GetFwmark (env : K8sEnv) (annotationKey : String) : Except FwmarkErr String :=
  match env.pod with
  | .notFound => .error .podNotFound
  | .failed => .error .podGetFailed
  | .ok podAnnotations =>
    match lookupAnnot podAnnotations annotationKey with
    | some fwmark =>
      if validateFwmark fwmark then .ok fwmark
      else .error (.invalidPodFwmark fwmark)
    | none =>
      match env.ns with
      | .notFound => .error .nsNotFound
      | .failed => .error .nsGetFailed
      | .ok nsAnnotations =>
        match lookupAnnot nsAnnotations annotationKey with
        | some fwmark =>
          if validateFwmark fwmark then .ok fwmark
          else .error (.invalidNsFwmark fwmark)
        | none => .ok ""

example : GetFwmark ⟨.ok [("tenant.routing/fwmark", "0x10")], .ok []⟩ "tenant.routing/fwmark" = .ok "0x10" := by decide
example : GetFwmark ⟨.ok [], .ok [("tenant.routing/fwmark", "0x20")]⟩ "tenant.routing/fwmark" = .ok "0x20" := by decide
example : GetFwmark ⟨.ok [], .ok []⟩ "tenant.routing/fwmark" = .ok "" := by decide
example : GetFwmark ⟨.ok [("tenant.routing/fwmark", "0x99")], .ok []⟩ "tenant.routing/fwmark" = .error (.invalidPodFwmark "0x99") := by decide
example : GetFwmark ⟨.notFound, .ok []⟩ "k" = .error .podNotFound := by decide

end K8s

/-! ## main package: command dispatcher

`cmdAdd` / `cmdDel` / `cmdCheck` orchestrate external collaborators.  Each
fallible external call's outcome for the current invocation is a field of
`Env` (config parsing included: `config.ParseConfig` is pure but its result
is consumed opaquely here).  The dispatcher returns its CNI outcome plus the
trace of external calls it made, in order; calls whose failures the code
only logs are matched on with identical arms, mirroring the
log-and-continue source. -/

/-- `config.PluginConf` as the dispatcher consumes it: the fields read by
cmdAdd/cmdDel/cmdCheck.  (`prevResult` is `NetConf.PrevResult`.) -/
structure PluginConf where
  cniVersion : String
  name : String
  kubeconfig : String
  annotationKey : String
  prevResult : Option CNIResult
  deriving DecidableEq, Repr

/-- Per-invocation outcomes of the external calls the dispatcher can make.
`Unit` errors stand for the opaque Go errors, whose content the dispatcher
never inspects. -/
structure Env where
  /-- Outcome of `config.ParseConfig(args.StdinData)`. -/
  parseConfig : Except Unit PluginConf
  /-- Outcome of `delegate.DelegateAdd`. -/
  delegateAdd : Except Unit (Option CNIResult)
  /-- Outcome of `delegate.DelegateDel` (failure is only logged). -/
  delegateDel : Except Unit Unit
  /-- Outcome of `delegate.DelegateCheck`. -/
  delegateCheck : Except Unit Unit
  /-- Outcome of `k8s.NewClient(pluginConf.Kubeconfig)`. -/
  newClient : Except Unit Unit
  /-- Outcome of `k8s.GetFwmark` (see `K8s.GetFwmark` for its semantics). -/
  getFwmark : Except Unit String
  /-- Outcome of `iptables.AddMarkRule` (failure is only logged). -/
  addMarkRule : Except Unit Unit
  /-- Outcome of `iptables.DeleteMarkRule` for a given fwmark (failure is
  only logged). -/
  deleteMarkRule : String → Except Unit Unit
  /-- Outcome of `iptables.RuleExists`. -/
  ruleExists : Except Unit Bool

/-- One external call made by the dispatcher. -/
inductive Event where
  | delegateAdd
  | delegateDel
  | delegateCheck
  | newClient
  | getFwmark
  | addMarkRule (podIP : NetIP) (fwmark : String)
  | deleteMarkRule (podIP : NetIP) (fwmark : String)
  | ruleExists (podIP : NetIP) (fwmark : String)
  deriving DecidableEq, Repr

/-- Errors surfaced by the dispatcher, one per `fmt.Errorf` wrapping site. -/
inductive CniErr where
  /-- "failed to parse config: %w" -/
  | configParseFailed
  /-- "failed to parse CNI_ARGS: %w" -/
  | argsParseFailed (e : ArgsErr)
  /-- "delegation failed: %w" -/
  | delegationFailed
  /-- "failed to extract pod IP from delegate result: %w" -/
  | extractIPFailed (e : ExtractErr)
  /-- "delegate CHECK failed: %w" -/
  | delegateCheckFailed
  /-- "configuration drift detected: fwmark annotation %s present for pod
  %s/%s (IP: %s) but iptables rule missing" — carries the tag, pod name,
  pod namespace, and address it names. -/
  | drift (fwmark : String) (podName podNamespace : String) (podIP : NetIP)
  deriving DecidableEq, Repr

/-- `cmdAdd` from the main package.  On success the emitted output is
`types.PrintResult(delegateResult, ...)` — the delegate's result unchanged,
which the model returns as the `.ok` payload. -/
def cmdAdd (env : Env) (cniArgs : String) :
    Except CniErr (Option CNIResult) × List Event :=
  match env.parseConfig with
  | .error _ => (.error .configParseFailed, [])
  | .ok _conf =>
    match parseCNIArgs cniArgs with
    | .error e => (.error (.argsParseFailed e), [])
    | .ok (_podName, _podNamespace) =>
      match env.delegateAdd with
      | .error _ => (.error .delegationFailed, [.delegateAdd])
      | .ok delegateResult =>
        match ExtractPodIP delegateResult with
        | .error e => (.error (.extractIPFailed e), [.delegateAdd])
        | .ok podIP =>
          match env.newClient with
          | .error _ =>
            -- "WARNING: failed to create K8s client, skipping fwmark setup"
            (.ok delegateResult, [.delegateAdd, .newClient])
          | .ok () =>
            match env.getFwmark with
            | .error _ =>
              -- "WARNING: failed to get fwmark annotation"
              (.ok delegateResult, [.delegateAdd, .newClient, .getFwmark])
            | .ok fwmark =>
              if fwmark ≠ "" then
                match env.addMarkRule with
                | .error _ =>
                  -- "WARNING: failed to add iptables rule" — non-fatal
                  (.ok delegateResult,
                    [.delegateAdd, .newClient, .getFwmark, .addMarkRule podIP fwmark])
                | .ok () =>
                  (.ok delegateResult,
                    [.delegateAdd, .newClient, .getFwmark, .addMarkRule podIP fwmark])
              else
                (.ok delegateResult, [.delegateAdd, .newClient, .getFwmark])

/-- `cleanupIptablesRules` from the main package: delete the rule for this
IP under every fwmark in `k8s.ValidFwmarkValues` (a Go map, so the range
order is unspecified; only the set of attempts is meaningful), ignoring
(logging) each outcome.  Returns the delete attempts as events. -/
def cleanupIptablesRules (env : Env) (podIP : NetIP) : List Event :=
  K8s.ValidFwmarkValues.map (fun fwmark =>
    match env.deleteMarkRule fwmark with
    | .error _ => Event.deleteMarkRule podIP fwmark  -- "DEBUG: DeleteMarkRule failed"
    | .ok () => Event.deleteMarkRule podIP fwmark)

/-- `cmdDel` from the main package: every sub-failure is logged and
tolerated; the delegate DEL always runs once the config parses; rule
cleanup uses the resolved fwmark when the identity is known and the
metadata store answers, and otherwise sweeps every allow-listed value. -/
def cmdDel (env : Env) (cniArgs : String) : Except CniErr Unit × List Event :=
  match env.parseConfig with
  | .error _ =>
    -- "WARNING: failed to parse config in DEL" — return success
    (.ok (), [])
  | .ok conf =>
    -- On args failure Go logs and keeps the zero values podName = podNamespace = "".
    let (podName, podNamespace) :=
      match parseCNIArgs cniArgs with
      | .ok p => p
      | .error _ => ("", "")
    -- podIP stays "" when prevResult is absent or extraction fails (logged).
    let podIP : Option NetIP :=
      match conf.prevResult with
      | none => none
      | some r =>
        match ExtractPodIP (some r) with
        | .ok ip => some ip
        | .error _ => none
    -- Delegate DEL runs regardless; its failure is logged only.
    let evs : List Event :=
      match env.delegateDel with
      | .error _ => [.delegateDel]  -- "WARNING: delegate DEL failed"
      | .ok () => [.delegateDel]
    match podIP with
    | some ip =>
      if podName ≠ "" ∧ podNamespace ≠ "" then
        match env.newClient with
        | .error _ =>
          -- "WARNING: failed to create K8s client for cleanup"
          (.ok (), evs ++ [.newClient])
        | .ok () =>
          match env.getFwmark with
          | .error _ =>
            -- "INFO: could not get fwmark for cleanup (pod may be deleted)"
            (.ok (), evs ++ [.newClient, .getFwmark] ++ cleanupIptablesRules env ip)
          | .ok fwmark =>
            if fwmark ≠ "" then
              match env.deleteMarkRule fwmark with
              | .error _ =>
                -- "WARNING: failed to delete iptables rule"
                (.ok (), evs ++ [.newClient, .getFwmark, .deleteMarkRule ip fwmark])
              | .ok () =>
                (.ok (), evs ++ [.newClient, .getFwmark, .deleteMarkRule ip fwmark])
            else
              (.ok (), evs ++ [.newClient, .getFwmark])
      else
        -- "INFO: cleaning up any iptables rules for IP (pod info unavailable)"
        (.ok (), evs ++ cleanupIptablesRules env ip)
    | none => (.ok (), evs)

/-- `cmdCheck` from the main package: config parse and delegate CHECK are
fatal; a missing identity, missing prevResult, extraction failure, client
failure, fwmark lookup failure, or existence-query failure each log and
return success; an absent rule under a resolved non-empty fwmark is the
drift error. -/
def cmdCheck (env : Env) (cniArgs : String) : Except CniErr Unit × List Event :=
  match env.parseConfig with
  | .error _ => (.error .configParseFailed, [])
  | .ok conf =>
    match env.delegateCheck with
    | .error _ => (.error .delegateCheckFailed, [.delegateCheck])
    | .ok () =>
      match parseCNIArgs cniArgs with
      | .error _ =>
        -- "WARNING: CHECK cannot verify iptables - failed to parse CNI_ARGS"
        (.ok (), [.delegateCheck])
      | .ok (podName, podNamespace) =>
        match conf.prevResult with
        | none =>
          -- "WARNING: CHECK cannot verify iptables - no prevResult available"
          (.ok (), [.delegateCheck])
        | some r =>
          match ExtractPodIP (some r) with
          | .error _ =>
            -- "WARNING: CHECK cannot verify iptables - failed to extract pod IP"
            (.ok (), [.delegateCheck])
          | .ok podIP =>
            match env.newClient with
            | .error _ =>
              -- "WARNING: CHECK cannot verify iptables - failed to create K8s client"
              (.ok (), [.delegateCheck, .newClient])
            | .ok () =>
              match env.getFwmark with
              | .error _ =>
                -- "WARNING: CHECK cannot verify iptables - failed to get fwmark annotation"
                (.ok (), [.delegateCheck, .newClient, .getFwmark])
              | .ok fwmark =>
                if fwmark ≠ "" then
                  match env.ruleExists with
                  | .error _ =>
                    -- "WARNING: CHECK cannot verify iptables rule existence"
                    (.ok (), [.delegateCheck, .newClient, .getFwmark, .ruleExists podIP fwmark])
                  | .ok true =>
                    -- "INFO: CHECK verified iptables rule exists"
                    (.ok (), [.delegateCheck, .newClient, .getFwmark, .ruleExists podIP fwmark])
                  | .ok false =>
                    (.error (.drift fwmark podName podNamespace podIP),
                      [.delegateCheck, .newClient, .getFwmark, .ruleExists podIP fwmark])
                else
                  (.ok (), [.delegateCheck, .newClient, .getFwmark])

/-! ## Helper lemmas -/

/-- `parseCNIArgs` in terms of the identity components it extracts. -/
lemma parseCNIArgs_eq (cniArgs : String) :
    parseCNIArgs cniArgs =
      if cniArgs = "" then .error .emptyArgs
      else if argsPodName cniArgs = "" then .error .podNameMissing
      else if argsPodNamespace cniArgs = "" then .error .podNamespaceMissing
      else .ok (argsPodName cniArgs, argsPodNamespace cniArgs) := rfl

/-- The empty `CNI_ARGS` string yields the empty identity. -/
lemma argsPodIdentity_empty : argsPodIdentity "" = ("", "") := by decide

/-- `parseCNIArgs` fails exactly when a non-empty pod name or namespace is
missing from the argument string. -/
lemma parseCNIArgs_error_iff (cniArgs : String) :
    (∃ e, parseCNIArgs cniArgs = .error e) ↔
      argsPodName cniArgs = "" ∨ argsPodNamespace cniArgs = "" := by
  rw [parseCNIArgs_eq]
  by_cases h0 : cniArgs = ""
  · subst h0
    simp only [if_pos rfl]
    have h1 : argsPodName "" = "" := by decide
    exact ⟨fun _ => Or.inl h1, fun _ => ⟨.emptyArgs, rfl⟩⟩
  · simp only [if_neg h0]
    by_cases h1 : argsPodName cniArgs = ""
    · simp only [if_pos h1]
      exact ⟨fun _ => Or.inl h1, fun _ => ⟨.podNameMissing, rfl⟩⟩
    · simp only [if_neg h1]
      by_cases h2 : argsPodNamespace cniArgs = ""
      · simp only [if_pos h2]
        exact ⟨fun _ => Or.inr h2, fun _ => ⟨.podNamespaceMissing, rfl⟩⟩
      · simp only [if_neg h2]
        constructor
        · rintro ⟨e, he⟩; cases he
        · rintro (h | h) <;> [exact absurd h h1; exact absurd h h2]

/-- `parseCNIArgs` succeeds exactly on the extracted identity when both
components are non-empty. -/
lemma parseCNIArgs_ok_of_nonempty (cniArgs : String)
    (h1 : argsPodName cniArgs ≠ "") (h2 : argsPodNamespace cniArgs ≠ "") :
    parseCNIArgs cniArgs = .ok (argsPodName cniArgs, argsPodNamespace cniArgs) := by
  have h0 : cniArgs ≠ "" := by
    intro h; apply h1; subst h; decide
  rw [parseCNIArgs_eq, if_neg h0, if_neg h1, if_neg h2]

/-! ## Claim theorems -/

/-- A concrete environment in which every external call succeeds: the
config parses, the delegate returns a result holding the single IPv4
address 10.200.1.5, the metadata store resolves fwmark 0x10, and the rule
tool reports the rule present. -/
def envAllOk : Env where
  parseConfig := .ok ⟨"1.0.0", "tenant-routing", "/etc/cni/kubeconfig", "tenant.routing/fwmark",
    some (.r100 [some [10, 200, 1, 5]])⟩
  delegateAdd := .ok (some (.r100 [some [10, 200, 1, 5]]))
  delegateDel := .ok ()
  delegateCheck := .ok ()
  newClient := .ok ()
  getFwmark := .ok "0x10"
  addMarkRule := .ok ()
  deleteMarkRule := fun _ => .ok ()
  ruleExists := .ok true

/-- C1: on Create, a configuration that fails to parse, or an argument
string lacking a non-empty pod name or pod namespace, makes `cmdAdd` return
an error with an empty event trace — in particular the delegate's create
was never invoked and no side effect preceded the failure. -/
theorem cmdAdd_fails_before_delegate (env : Env) (cniArgs : String)
    (h : env.parseConfig = .error ()
         ∨ argsPodName cniArgs = "" ∨ argsPodNamespace cniArgs = "") :
    (∃ e, (cmdAdd env cniArgs).1 = .error e) ∧ (cmdAdd env cniArgs).2 = [] := by
  unfold cmdAdd
  rcases h with h | h
  · rw [h]
    exact ⟨⟨.configParseFailed, rfl⟩, rfl⟩
  · have hargs : ∃ e, parseCNIArgs cniArgs = .error e :=
      (parseCNIArgs_error_iff cniArgs).mpr h
    obtain ⟨e, he⟩ := hargs
    cases hpc : env.parseConfig with
    | error u => exact ⟨⟨.configParseFailed, rfl⟩, rfl⟩
    | ok conf =>
      rw [he]
      exact ⟨⟨.argsParseFailed e, rfl⟩, rfl⟩

/-- Witness for C1: a concrete invocation whose argument string has a
namespace but no pod name, with all external calls otherwise succeeding:
`cmdAdd` errors and makes no external call. -/
theorem cmdAdd_fails_before_delegate_witness :
    argsPodName "K8S_POD_NAMESPACE=production" = "" ∧
    (∃ e, (cmdAdd envAllOk "K8S_POD_NAMESPACE=production").1 = .error e) ∧
    (cmdAdd envAllOk "K8S_POD_NAMESPACE=production").2 = [] := by
  refine ⟨by decide, ?_, ?_⟩
  · exact (cmdAdd_fails_before_delegate envAllOk _ (Or.inr (Or.inl (by decide)))).1
  · exact (cmdAdd_fails_before_delegate envAllOk _ (Or.inr (Or.inl (by decide)))).2

/-- C2: when configuration parsing, argument parsing, delegation, and
address extraction succeed, Create's outcome is success and the emitted
output is exactly the delegate's result, whatever the outcomes of client
creation, fwmark resolution, and rule installation (`env.newClient`,
`env.getFwmark`, `env.addMarkRule` are universally quantified here). -/
theorem cmdAdd_output_is_delegate_result (env : Env) (cniArgs : String)
    (conf : PluginConf) (r : Option CNIResult) (ip : NetIP)
    (hconf : env.parseConfig = .ok conf)
    (hargs : ∃ p, parseCNIArgs cniArgs = .ok p)
    (hdel : env.delegateAdd = .ok r)
    (hip : ExtractPodIP r = .ok ip) :
    (cmdAdd env cniArgs).1 = .ok r := by
  unfold cmdAdd
  obtain ⟨⟨podName, podNamespace⟩, hp⟩ := hargs
  rw [hconf, hp, hdel]
  dsimp only
  rw [hip]
  dsimp only
  cases env.newClient with
  | error _ => rfl
  | ok u =>
    cases u
    cases env.getFwmark with
    | error _ => rfl
    | ok fwmark =>
      by_cases hfw : fwmark = ""
      · simp only [hfw, ne_eq, not_true_eq_false, if_false]
      · simp only [ne_eq, hfw, not_false_eq_true, if_true]
        cases env.addMarkRule with
        | error _ => rfl
        | ok u => cases u; rfl

/-- Witness for C2: the all-success environment emits exactly the
delegate's result. -/
theorem cmdAdd_output_is_delegate_result_witness :
    (cmdAdd envAllOk "K8S_POD_NAME=web;K8S_POD_NAMESPACE=production").1 =
      .ok (some (.r100 [some [10, 200, 1, 5]])) := by
  exact cmdAdd_output_is_delegate_result envAllOk _ _ _ [10, 200, 1, 5]
    rfl ⟨("web", "production"), by decide⟩ rfl rfl

/-- Counterexample to C3: with a well-formed configuration and an argument
string missing the pod-name key, `cmdCheck` returns success — not an error —
and the delegate's verify HAS been invoked (the delegate call precedes
argument parsing in the source). -/
theorem cmdCheck_missing_args_counterexample :
    argsPodName "K8S_POD_NAMESPACE=production" = "" ∧
    (cmdCheck envAllOk "K8S_POD_NAMESPACE=production").1 = .ok () ∧
    Event.delegateCheck ∈ (cmdCheck envAllOk "K8S_POD_NAMESPACE=production").2 := by
  refine ⟨by decide, rfl, ?_⟩
  show Event.delegateCheck ∈ [Event.delegateCheck]
  exact List.mem_singleton.mpr rfl

/-- C3 as amended: with a well-formed configuration and an argument string
missing the pod-name or pod-namespace identity key, Verify does not fail on
account of the missing identity: the delegate's verify is invoked first,
and when it succeeds Verify returns success (its trace being exactly the
delegate call); when the delegate's verify fails, that failure is what
Verify returns. -/
theorem cmdCheck_missing_args_tolerated (env : Env) (cniArgs : String)
    (conf : PluginConf) (hconf : env.parseConfig = .ok conf)
    (h : argsPodName cniArgs = "" ∨ argsPodNamespace cniArgs = "") :
    (env.delegateCheck = .ok () →
      cmdCheck env cniArgs = (.ok (), [.delegateCheck])) ∧
    (env.delegateCheck = .error () →
      cmdCheck env cniArgs = (.error .delegateCheckFailed, [.delegateCheck])) := by
  obtain ⟨e, he⟩ := (parseCNIArgs_error_iff cniArgs).mpr h
  unfold cmdCheck
  rw [hconf]
  constructor
  · intro hdc
    rw [hdc]
    dsimp only
    rw [he]
  · intro hdc
    rw [hdc]

/-- Witness for the amended C3: concretely, with all calls succeeding and
the pod name missing, Verify succeeds after calling the delegate. -/
theorem cmdCheck_missing_args_tolerated_witness :
    cmdCheck envAllOk "K8S_POD_NAMESPACE=production" = (.ok (), [.delegateCheck]) :=
  (cmdCheck_missing_args_tolerated envAllOk "K8S_POD_NAMESPACE=production" _
    rfl (Or.inl (by decide))).1 rfl

/-- Inversion for a successful `parseCNIArgs`: the returned pair is the
extracted identity and both components are non-empty. -/
lemma parseCNIArgs_ok_inv {cniArgs : String} {podName podNamespace : String}
    (h : parseCNIArgs cniArgs = .ok (podName, podNamespace)) :
    podName = argsPodName cniArgs ∧ podNamespace = argsPodNamespace cniArgs ∧
    argsPodName cniArgs ≠ "" ∧ argsPodNamespace cniArgs ≠ "" := by
  rw [parseCNIArgs_eq] at h
  by_cases h0 : cniArgs = "" <;> simp only [h0, if_true, if_false] at h
  · cases h
  · by_cases h1 : argsPodName cniArgs = "" <;> simp only [h1, if_true, if_false] at h
    · cases h
    · by_cases h2 : argsPodNamespace cniArgs = "" <;> simp only [h2, if_true, if_false] at h
      · cases h
      · injection h with h
        injection h with ha hb
        exact ⟨ha.symm, hb.symm, h1, h2⟩

/-- The full-path conditions under which Verify's drift check fires: the
config parses, the delegate verify succeeds, both identity components are
present, a previous result is present and yields an address, the client is
obtained, a non-empty fwmark resolves, and the existence query answers
`false`. -/
def driftConditions (env : Env) (cniArgs : String)
    (conf : PluginConf) (r : CNIResult) (ip : NetIP) (fw : String) : Prop :=
  env.parseConfig = .ok conf ∧ env.delegateCheck = .ok () ∧
  argsPodName cniArgs ≠ "" ∧ argsPodNamespace cniArgs ≠ "" ∧
  conf.prevResult = some r ∧ ExtractPodIP (some r) = .ok ip ∧
  env.newClient = .ok () ∧ env.getFwmark = .ok fw ∧ fw ≠ "" ∧
  env.ruleExists = .ok false

/-- C4: `cmdCheck` returns an error in exactly three cases — configuration
parsing fails, the delegate's verify fails, or the full drift path is
reached with the rule absent (`driftConditions`), in which case the error
is the drift error carrying the tag, pod name, pod namespace, and address;
every other sub-failure yields success. -/
theorem cmdCheck_error_characterization (env : Env) (cniArgs : String) :
    ((∃ e, (cmdCheck env cniArgs).1 = .error e) ↔
      (env.parseConfig = .error ()
       ∨ ((∃ conf, env.parseConfig = .ok conf) ∧ env.delegateCheck = .error ())
       ∨ (∃ conf r ip fw, driftConditions env cniArgs conf r ip fw)))
    ∧ (∀ conf r ip fw, driftConditions env cniArgs conf r ip fw →
        (cmdCheck env cniArgs).1 =
          .error (.drift fw (argsPodName cniArgs) (argsPodNamespace cniArgs) ip)) := by
  obtain ⟨pc, da, dd, dc, nc, gf, am, dm, re⟩ := env
  cases pc with
  | error u => cases u; simp [cmdCheck, driftConditions]
  | ok conf₀ =>
    cases dc with
    | error u => cases u; simp [cmdCheck, driftConditions]
    | ok u =>
      cases u
      cases hp : parseCNIArgs cniArgs with
      | error e =>
        rcases (parseCNIArgs_error_iff cniArgs).mp ⟨e, hp⟩ with h | h <;>
          simp [cmdCheck, driftConditions, hp, h]
      | ok p =>
        obtain ⟨podName, podNamespace⟩ := p
        obtain ⟨hn, hns, hn', hns'⟩ := parseCNIArgs_ok_inv hp
        subst hn; subst hns
        cases hprev : conf₀.prevResult with
        | none =>
          simp [cmdCheck, driftConditions, hp, hprev]
          intro conf r ip fw h1 _ _ hpr
          subst h1
          rw [hprev] at hpr
          simp at hpr
        | some r₀ =>
          cases hext : ExtractPodIP (some r₀) with
          | error e₁ =>
            simp [cmdCheck, driftConditions, hp, hprev, hext]
            intro conf r ip fw h1 _ _ hpr hex
            subst h1
            rw [hprev] at hpr
            cases hpr
            rw [hext] at hex
            simp at hex
          | ok ip₀ =>
            cases nc with
            | error u => cases u; simp [cmdCheck, driftConditions, hp, hprev, hext]
            | ok u =>
              cases u
              cases gf with
              | error u => cases u; simp [cmdCheck, driftConditions, hp, hprev, hext]
              | ok fw₀ =>
                by_cases hfwe : fw₀ = ""
                · subst hfwe
                  simp [cmdCheck, driftConditions, hp, hprev, hext]
                  intro conf r ip fw _ _ _ _ _ hfw hne
                  exact absurd hfw.symm hne
                · cases re with
                  | error u =>
                    cases u
                    simp [cmdCheck, driftConditions, hp, hprev, hext, hfwe]
                  | ok b =>
                    cases b with
                    | true =>
                      simp [cmdCheck, driftConditions, hp, hprev, hext, hfwe, hn', hns']
                    | false =>
                      simp [cmdCheck, driftConditions, hp, hprev, hext, hfwe, hn', hns']
                      rintro conf r ip fw rfl hpr hex rfl -
                      rw [hprev] at hpr
                      cases hpr
                      rw [hext] at hex
                      cases hex
                      exact ⟨rfl, rfl⟩

/-- The all-success environment except that the rule-existence query
reports the rule absent: the drift case. -/
def envDrift : Env :=
  { envAllOk with ruleExists := .ok false }

/-- Witness for C4: with the rule absent and everything else succeeding,
Verify fails with the drift error naming the tag, pod, namespace, and
address. -/
theorem cmdCheck_error_characterization_witness :
    (cmdCheck envDrift "K8S_POD_NAME=web;K8S_POD_NAMESPACE=production").1 =
      .error (.drift "0x10"
        (argsPodName "K8S_POD_NAME=web;K8S_POD_NAMESPACE=production")
        (argsPodNamespace "K8S_POD_NAME=web;K8S_POD_NAMESPACE=production")
        [10, 200, 1, 5]) :=
  (cmdCheck_error_characterization envDrift "K8S_POD_NAME=web;K8S_POD_NAMESPACE=production").2
    _ (.r100 [some [10, 200, 1, 5]]) [10, 200, 1, 5] "0x10"
    ⟨rfl, rfl, by decide, by decide, rfl, rfl, rfl, rfl, by decide, rfl⟩

/-- C5: `cmdDel` returns success for every environment (that is, whatever
the outcomes of configuration parsing, argument parsing, previous-result
extraction, delegation, client creation, tag resolution, and rule
deletion) and every argument string. -/
theorem cmdDel_never_fails (env : Env) (cniArgs : String) :
    (cmdDel env cniArgs).1 = .ok () := by
  obtain ⟨pc, da, dd, dc, nc, gf, am, dm, re⟩ := env
  cases pc with
  | error u => rfl
  | ok conf =>
    unfold cmdDel
    dsimp only
    repeat' split
    all_goals rfl

/-- The cleanup sweep's trace: one delete attempt per allow-listed value,
whatever each attempt's outcome. -/
lemma cleanupIptablesRules_eq (env : Env) (podIP : NetIP) :
    cleanupIptablesRules env podIP =
      K8s.ValidFwmarkValues.map (fun fwmark => Event.deleteMarkRule podIP fwmark) := by
  unfold cleanupIptablesRules
  congr 1
  funext fwmark
  cases env.deleteMarkRule fwmark <;> rfl

/-- C6: on Destroy with an address extracted from the previous result,
(a) when the full pod identity is known, the client is obtained and tag
resolution fails, the handler attempts deletion of the mark rule for that
address under every allow-listed tag value; (b) when the identity is not
fully known, it performs the same every-tag deletion sweep. -/
theorem cmdDel_sweeps_all_fwmarks (env : Env) (cniArgs : String)
    (conf : PluginConf) (r : CNIResult) (ip : NetIP)
    (hconf : env.parseConfig = .ok conf)
    (hprev : conf.prevResult = some r)
    (hip : ExtractPodIP (some r) = .ok ip) :
    ((argsPodName cniArgs ≠ "" ∧ argsPodNamespace cniArgs ≠ "") →
      env.newClient = .ok () → env.getFwmark = .error () →
      ∀ fw ∈ K8s.ValidFwmarkValues,
        Event.deleteMarkRule ip fw ∈ (cmdDel env cniArgs).2)
    ∧ ((argsPodName cniArgs = "" ∨ argsPodNamespace cniArgs = "") →
      ∀ fw ∈ K8s.ValidFwmarkValues,
        Event.deleteMarkRule ip fw ∈ (cmdDel env cniArgs).2) := by
  obtain ⟨pc, da, dd, dc, nc, gf, am, dm, re⟩ := env
  dsimp only at hconf
  subst hconf
  constructor
  · rintro ⟨hn, hns⟩ hnc hgf
    dsimp only at hnc hgf
    subst hnc
    subst hgf
    have hp := parseCNIArgs_ok_of_nonempty cniArgs hn hns
    intro fw hfw
    unfold cmdDel
    dsimp only
    rw [hp, hprev]
    dsimp only
    rw [hip]
    dsimp only
    rw [if_pos ⟨hn, hns⟩]
    cases dd <;>
      · dsimp only
        refine List.mem_append_right _ ?_
        rw [cleanupIptablesRules_eq]
        exact List.mem_map_of_mem _ hfw
  · intro hids fw hfw
    obtain ⟨e, he⟩ := (parseCNIArgs_error_iff cniArgs).mpr hids
    unfold cmdDel
    dsimp only
    rw [he, hprev]
    dsimp only
    rw [hip]
    dsimp only
    rw [if_neg (by simp)]
    cases dd <;>
      · dsimp only
        refine List.mem_append_right _ ?_
        rw [cleanupIptablesRules_eq]
        exact List.mem_map_of_mem _ hfw

/-- The all-success environment except that tag resolution fails, as when
the pod is already deleted from the metadata store. -/
def envDelFallback : Env :=
  { envAllOk with getFwmark := .error () }

/-- Witness for C6: concretely, when tag resolution fails on Destroy with
a known identity and address, both allow-listed tag deletions appear in the
trace. -/
theorem cmdDel_sweeps_all_fwmarks_witness :
    Event.deleteMarkRule [10, 200, 1, 5] "0x10" ∈
      (cmdDel envDelFallback "K8S_POD_NAME=web;K8S_POD_NAMESPACE=production").2 ∧
    Event.deleteMarkRule [10, 200, 1, 5] "0x20" ∈
      (cmdDel envDelFallback "K8S_POD_NAME=web;K8S_POD_NAMESPACE=production").2 := by
  constructor
  · exact (cmdDel_sweeps_all_fwmarks envDelFallback _ _ (.r100 [some [10, 200, 1, 5]]) _
      rfl rfl rfl).1 ⟨by decide, by decide⟩ rfl rfl "0x10" (by decide)
  · exact (cmdDel_sweeps_all_fwmarks envDelFallback _ _ (.r100 [some [10, 200, 1, 5]]) _
      rfl rfl rfl).1 ⟨by decide, by decide⟩ rfl rfl "0x20" (by decide)

namespace Iptables

/-- The rule table after an `AddMarkRule` call. -/
def addResultTable (chain : RuleTable) (podIP fwmark : String) : RuleTable :=
  (AddMarkRule chain podIP fwmark).2.1

/-- The rule table after a `DeleteMarkRule` call. -/
def delResultTable (chain : RuleTable) (podIP fwmark : String) : RuleTable :=
  (DeleteMarkRule chain podIP fwmark).2.1

/-- `AddMarkRule` on valid inputs: success, appending exactly when absent. -/
lemma AddMarkRule_valid (chain : RuleTable) (podIP fwmark : String)
    (h1 : goTrimSpace podIP ≠ "") (h2 : Net.ParseIP podIP ≠ none)
    (h3 : validateFwmark fwmark = .ok ()) :
    AddMarkRule chain podIP fwmark =
      if (podIP, fwmark) ∈ chain then
        (.ok (), chain, [.initManager, .existsQuery podIP fwmark])
      else
        (.ok (), chain ++ [(podIP, fwmark)],
          [.initManager, .existsQuery podIP fwmark, .appendRule podIP fwmark]) := by
  unfold AddMarkRule
  rw [if_neg h1, if_neg h2, h3]

/-- `DeleteMarkRule` on valid inputs: success, erasing exactly when present. -/
lemma DeleteMarkRule_valid (chain : RuleTable) (podIP fwmark : String)
    (h1 : goTrimSpace podIP ≠ "") (h2 : Net.ParseIP podIP ≠ none)
    (h3 : validateFwmark fwmark = .ok ()) :
    DeleteMarkRule chain podIP fwmark =
      if (podIP, fwmark) ∈ chain then
        (.ok (), chain.erase (podIP, fwmark),
          [.initManager, .existsQuery podIP fwmark, .deleteRule podIP fwmark])
      else
        (.ok (), chain, [.initManager, .existsQuery podIP fwmark]) := by
  unfold DeleteMarkRule
  rw [if_neg h1, if_neg h2, h3]

end Iptables

/-- C7: for valid inputs, over the abstract rule table: `AddMarkRule` on a
present rule succeeds without modifying the table and otherwise appends
exactly that rule; `DeleteMarkRule` on an absent rule succeeds without
modifying the table and otherwise removes it; consequently (on tables
carrying at most one copy, the invariant both operations preserve) adding
twice leaves exactly one `(address, tag)` rule, deleting twice leaves zero,
and the second delete of add-delete-delete is a no-op. -/
theorem markRule_add_delete_idempotent (chain : Iptables.RuleTable) (podIP fwmark : String)
    (h1 : Iptables.goTrimSpace podIP ≠ "") (h2 : Net.ParseIP podIP ≠ none)
    (h3 : Iptables.validateFwmark fwmark = .ok ()) :
    (((podIP, fwmark) ∈ chain →
        (Iptables.AddMarkRule chain podIP fwmark).1 = .ok () ∧
        Iptables.addResultTable chain podIP fwmark = chain)
     ∧ ((podIP, fwmark) ∉ chain →
        (Iptables.AddMarkRule chain podIP fwmark).1 = .ok () ∧
        Iptables.addResultTable chain podIP fwmark = chain ++ [(podIP, fwmark)])
     ∧ ((podIP, fwmark) ∈ chain →
        (Iptables.DeleteMarkRule chain podIP fwmark).1 = .ok () ∧
        Iptables.delResultTable chain podIP fwmark = chain.erase (podIP, fwmark))
     ∧ ((podIP, fwmark) ∉ chain →
        (Iptables.DeleteMarkRule chain podIP fwmark).1 = .ok () ∧
        Iptables.delResultTable chain podIP fwmark = chain))
    ∧ (chain.count (podIP, fwmark) ≤ 1 →
        (Iptables.addResultTable (Iptables.addResultTable chain podIP fwmark) podIP fwmark).count
            (podIP, fwmark) = 1
        ∧ (Iptables.delResultTable (Iptables.delResultTable chain podIP fwmark) podIP fwmark).count
            (podIP, fwmark) = 0
        ∧ Iptables.delResultTable
            (Iptables.delResultTable (Iptables.addResultTable chain podIP fwmark) podIP fwmark)
            podIP fwmark =
          Iptables.delResultTable (Iptables.addResultTable chain podIP fwmark) podIP fwmark) := by
  have hadd := Iptables.AddMarkRule_valid chain podIP fwmark h1 h2 h3
  have hdel := Iptables.DeleteMarkRule_valid chain podIP fwmark h1 h2 h3
  constructor
  · refine ⟨fun hm => ?_, fun hm => ?_, fun hm => ?_, fun hm => ?_⟩ <;>
      simp [Iptables.addResultTable, Iptables.delResultTable, hadd, hdel, hm]
  · intro hcount
    by_cases hm : (podIP, fwmark) ∈ chain
    · -- present: count is exactly one
      have hone : chain.count (podIP, fwmark) = 1 :=
        le_antisymm hcount (List.one_le_count_iff.mpr hm)
      have haddt : Iptables.addResultTable chain podIP fwmark = chain := by
        simp [Iptables.addResultTable, hadd, hm]
      have hdelt : Iptables.delResultTable chain podIP fwmark = chain.erase (podIP, fwmark) := by
        simp [Iptables.delResultTable, hdel, hm]
      have herase0 : (chain.erase (podIP, fwmark)).count (podIP, fwmark) = 0 := by
        rw [List.count_erase_self, hone]
      have hnm : (podIP, fwmark) ∉ chain.erase (podIP, fwmark) :=
        List.count_eq_zero.mp herase0
      have hdel2 := Iptables.DeleteMarkRule_valid (chain.erase (podIP, fwmark)) podIP fwmark h1 h2 h3
      refine ⟨?_, ?_, ?_⟩
      · rw [haddt, haddt, hone]
      · rw [hdelt, Iptables.delResultTable, hdel2, if_neg hnm]
        exact herase0
      · rw [haddt, hdelt, Iptables.delResultTable, hdel2, if_neg hnm]
    · -- absent: count is zero
      have hzero : chain.count (podIP, fwmark) = 0 := List.count_eq_zero.mpr hm
      have haddt : Iptables.addResultTable chain podIP fwmark = chain ++ [(podIP, fwmark)] := by
        simp [Iptables.addResultTable, hadd, hm]
      have hdelt : Iptables.delResultTable chain podIP fwmark = chain := by
        simp [Iptables.delResultTable, hdel, hm]
      have hmem1 : (podIP, fwmark) ∈ chain ++ [(podIP, fwmark)] := by
        simp
      have hcount1 : (chain ++ [(podIP, fwmark)]).count (podIP, fwmark) = 1 := by
        rw [List.count_append, hzero]
        simp
      have hadd2 := Iptables.AddMarkRule_valid (chain ++ [(podIP, fwmark)]) podIP fwmark h1 h2 h3
      have hdel2 := Iptables.DeleteMarkRule_valid (chain ++ [(podIP, fwmark)]) podIP fwmark h1 h2 h3
      have herase0 : ((chain ++ [(podIP, fwmark)]).erase (podIP, fwmark)).count (podIP, fwmark) = 0 := by
        rw [List.count_erase_self, hcount1]
      have hnm1 : (podIP, fwmark) ∉ (chain ++ [(podIP, fwmark)]).erase (podIP, fwmark) :=
        List.count_eq_zero.mp herase0
      have hdel3 := Iptables.DeleteMarkRule_valid
        ((chain ++ [(podIP, fwmark)]).erase (podIP, fwmark)) podIP fwmark h1 h2 h3
      refine ⟨?_, ?_, ?_⟩
      · rw [haddt, Iptables.addResultTable, hadd2, if_pos hmem1]
        exact hcount1
      · rw [hdelt, hdelt]
        exact hzero
      · have hstep1 : Iptables.delResultTable (chain ++ [(podIP, fwmark)]) podIP fwmark =
            (chain ++ [(podIP, fwmark)]).erase (podIP, fwmark) := by
          rw [Iptables.delResultTable, hdel2, if_pos hmem1]
        rw [haddt, hstep1, Iptables.delResultTable, hdel3, if_neg hnm1]

/-- Witness for C7: for the valid pair (10.200.1.5, 0x10) on the empty
table, adding twice yields exactly one rule. -/
theorem markRule_add_delete_idempotent_witness :
    Iptables.goTrimSpace "10.200.1.5" ≠ "" ∧ Net.ParseIP "10.200.1.5" ≠ none ∧
    Iptables.validateFwmark "0x10" = .ok () ∧
    (Iptables.addResultTable (Iptables.addResultTable [] "10.200.1.5" "0x10") "10.200.1.5" "0x10").count
      ("10.200.1.5", "0x10") = 1 :=
  ⟨by decide, by decide, by decide,
   ((markRule_add_delete_idempotent [] "10.200.1.5" "0x10"
      (by decide) (by decide) (by decide)).2 (by decide)).1⟩

/-- Counterexample to C8: the tag "0X10" lies outside the literal
allow-list {0x10, 0x20}, yet `AddMarkRule` (which trims and lowercases
before comparing) accepts it and invokes the external rule tool —
initializing iptables, querying, and appending a rule carrying the
original string "0X10". -/
theorem markRule_allowlist_literal_counterexample :
    ("0X10" ≠ "0x10" ∧ "0X10" ≠ "0x20") ∧
    (Iptables.AddMarkRule [] "10.0.0.1" "0X10").1 = .ok () ∧
    (Iptables.AddMarkRule [] "10.0.0.1" "0X10").2.2 =
      [.initManager, .existsQuery "10.0.0.1" "0X10", .appendRule "10.0.0.1" "0X10"] ∧
    (Iptables.AddMarkRule [] "10.0.0.1" "0X10").2.1 = [("10.0.0.1", "0X10")] := by
  refine ⟨⟨by decide, by decide⟩, by decide, by decide, by decide⟩

/-- C8 as amended: for every tag value whose whitespace-trimmed, lowercased
form is outside the allow-list {0x10, 0x20} (that is, every tag
`validateFwmark` rejects), and for every address string that does not parse
as a well-formed IP address (including the empty string and strings with
shell metacharacters), `AddMarkRule`, `DeleteMarkRule`, and `RuleExists`
return an error without invoking the external rule tool: no iptables
initialization, query, or mutation occurs and the table is unchanged. -/
theorem markRule_rejects_invalid_inputs (chain : Iptables.RuleTable) (podIP fwmark : String) :
    (Net.ParseIP podIP = none →
      ((∃ e, (Iptables.AddMarkRule chain podIP fwmark).1 = .error e)
        ∧ (Iptables.AddMarkRule chain podIP fwmark).2.1 = chain
        ∧ (Iptables.AddMarkRule chain podIP fwmark).2.2 = [])
      ∧ ((∃ e, (Iptables.DeleteMarkRule chain podIP fwmark).1 = .error e)
        ∧ (Iptables.DeleteMarkRule chain podIP fwmark).2.1 = chain
        ∧ (Iptables.DeleteMarkRule chain podIP fwmark).2.2 = [])
      ∧ ((∃ e, (Iptables.RuleExists chain podIP fwmark).1 = .error e)
        ∧ (Iptables.RuleExists chain podIP fwmark).2.1 = chain
        ∧ (Iptables.RuleExists chain podIP fwmark).2.2 = []))
    ∧ (∀ e₀, Iptables.validateFwmark fwmark = .error e₀ →
      ((∃ e, (Iptables.AddMarkRule chain podIP fwmark).1 = .error e)
        ∧ (Iptables.AddMarkRule chain podIP fwmark).2.1 = chain
        ∧ (Iptables.AddMarkRule chain podIP fwmark).2.2 = [])
      ∧ ((∃ e, (Iptables.DeleteMarkRule chain podIP fwmark).1 = .error e)
        ∧ (Iptables.DeleteMarkRule chain podIP fwmark).2.1 = chain
        ∧ (Iptables.DeleteMarkRule chain podIP fwmark).2.2 = [])
      ∧ ((∃ e, (Iptables.RuleExists chain podIP fwmark).1 = .error e)
        ∧ (Iptables.RuleExists chain podIP fwmark).2.1 = chain
        ∧ (Iptables.RuleExists chain podIP fwmark).2.2 = [])) := by
  constructor
  · intro hip
    by_cases htrim : Iptables.goTrimSpace podIP = ""
    · have hA : Iptables.AddMarkRule chain podIP fwmark = (.error .emptyPodIP, chain, []) := by
        simp [Iptables.AddMarkRule, htrim]
      have hD : Iptables.DeleteMarkRule chain podIP fwmark = (.error .emptyPodIP, chain, []) := by
        simp [Iptables.DeleteMarkRule, htrim]
      have hR : Iptables.RuleExists chain podIP fwmark = (.error .emptyPodIP, chain, []) := by
        simp [Iptables.RuleExists, htrim]
      exact ⟨⟨⟨.emptyPodIP, by rw [hA]⟩, by rw [hA], by rw [hA]⟩,
             ⟨⟨.emptyPodIP, by rw [hD]⟩, by rw [hD], by rw [hD]⟩,
             ⟨⟨.emptyPodIP, by rw [hR]⟩, by rw [hR], by rw [hR]⟩⟩
    · have hA : Iptables.AddMarkRule chain podIP fwmark =
          (.error (.invalidIPFormat podIP), chain, []) := by
        simp [Iptables.AddMarkRule, htrim, hip]
      have hD : Iptables.DeleteMarkRule chain podIP fwmark =
          (.error (.invalidIPFormat podIP), chain, []) := by
        simp [Iptables.DeleteMarkRule, htrim, hip]
      have hR : Iptables.RuleExists chain podIP fwmark =
          (.error (.invalidIPFormat podIP), chain, []) := by
        simp [Iptables.RuleExists, htrim, hip]
      exact ⟨⟨⟨_, by rw [hA]⟩, by rw [hA], by rw [hA]⟩,
             ⟨⟨_, by rw [hD]⟩, by rw [hD], by rw [hD]⟩,
             ⟨⟨_, by rw [hR]⟩, by rw [hR], by rw [hR]⟩⟩
  · intro e₀ hfw
    by_cases htrim : Iptables.goTrimSpace podIP = ""
    · have hA : Iptables.AddMarkRule chain podIP fwmark = (.error .emptyPodIP, chain, []) := by
        simp [Iptables.AddMarkRule, htrim]
      have hD : Iptables.DeleteMarkRule chain podIP fwmark = (.error .emptyPodIP, chain, []) := by
        simp [Iptables.DeleteMarkRule, htrim]
      have hR : Iptables.RuleExists chain podIP fwmark = (.error .emptyPodIP, chain, []) := by
        simp [Iptables.RuleExists, htrim]
      exact ⟨⟨⟨.emptyPodIP, by rw [hA]⟩, by rw [hA], by rw [hA]⟩,
             ⟨⟨.emptyPodIP, by rw [hD]⟩, by rw [hD], by rw [hD]⟩,
             ⟨⟨.emptyPodIP, by rw [hR]⟩, by rw [hR], by rw [hR]⟩⟩
    · by_cases hip : Net.ParseIP podIP = none
      · have hA : Iptables.AddMarkRule chain podIP fwmark =
            (.error (.invalidIPFormat podIP), chain, []) := by
          simp [Iptables.AddMarkRule, htrim, hip]
        have hD : Iptables.DeleteMarkRule chain podIP fwmark =
            (.error (.invalidIPFormat podIP), chain, []) := by
          simp [Iptables.DeleteMarkRule, htrim, hip]
        have hR : Iptables.RuleExists chain podIP fwmark =
            (.error (.invalidIPFormat podIP), chain, []) := by
          simp [Iptables.RuleExists, htrim, hip]
        exact ⟨⟨⟨_, by rw [hA]⟩, by rw [hA], by rw [hA]⟩,
               ⟨⟨_, by rw [hD]⟩, by rw [hD], by rw [hD]⟩,
               ⟨⟨_, by rw [hR]⟩, by rw [hR], by rw [hR]⟩⟩
      · have hA : Iptables.AddMarkRule chain podIP fwmark = (.error e₀, chain, []) := by
          simp [Iptables.AddMarkRule, htrim, hip, hfw]
        have hD : Iptables.DeleteMarkRule chain podIP fwmark = (.error e₀, chain, []) := by
          simp [Iptables.DeleteMarkRule, htrim, hip, hfw]
        have hR : Iptables.RuleExists chain podIP fwmark = (.error e₀, chain, []) := by
          simp [Iptables.RuleExists, htrim, hip, hfw]
        exact ⟨⟨⟨e₀, by rw [hA]⟩, by rw [hA], by rw [hA]⟩,
               ⟨⟨e₀, by rw [hD]⟩, by rw [hD], by rw [hD]⟩,
               ⟨⟨e₀, by rw [hR]⟩, by rw [hR], by rw [hR]⟩⟩

/-- Witness for the amended C8: an address carrying shell metacharacters
fails to parse and `AddMarkRule` rejects it with no tool operation; the
out-of-allow-list tag "0x30" is likewise rejected with no tool operation. -/
theorem markRule_rejects_invalid_inputs_witness :
    Net.ParseIP "10.0.0.1; rm -rf /" = none ∧
    ((∃ e, (Iptables.AddMarkRule [] "10.0.0.1; rm -rf /" "0x10").1 = .error e) ∧
      (Iptables.AddMarkRule [] "10.0.0.1; rm -rf /" "0x10").2.2 = []) ∧
    Iptables.validateFwmark "0x30" = .error (.invalidFwmark "0x30") ∧
    ((∃ e, (Iptables.DeleteMarkRule [] "10.0.0.1" "0x30").1 = .error e) ∧
      (Iptables.DeleteMarkRule [] "10.0.0.1" "0x30").2.2 = []) :=
  ⟨by decide,
   ⟨((markRule_rejects_invalid_inputs [] "10.0.0.1; rm -rf /" "0x10").1 (by decide)).1.1,
    ((markRule_rejects_invalid_inputs [] "10.0.0.1; rm -rf /" "0x10").1 (by decide)).1.2.2⟩,
   by decide,
   ⟨((markRule_rejects_invalid_inputs [] "10.0.0.1" "0x30").2 (.invalidFwmark "0x30") (by decide)).2.1.1,
    ((markRule_rejects_invalid_inputs [] "10.0.0.1" "0x30").2 (.invalidFwmark "0x30") (by decide)).2.1.2.2⟩⟩

/-- C9: resolution order of `GetFwmark`: a pod-carried value is returned
when allow-listed and is an error (not absence) otherwise; a pod lacking
the key defers to the namespace under the same validation; neither carrying
the key yields the empty tag with no error; a not-found pod or namespace
object is an error — distinct from key absence, which is not an error at
all. -/
theorem getFwmark_resolution (env : K8s.K8sEnv) (key : String) :
    (∀ podAnn v, env.pod = .ok podAnn → K8s.lookupAnnot podAnn key = some v →
       (K8s.validateFwmark v = true → K8s.GetFwmark env key = .ok v)
       ∧ (K8s.validateFwmark v = false →
            K8s.GetFwmark env key = .error (.invalidPodFwmark v)))
    ∧ (∀ podAnn nsAnn v, env.pod = .ok podAnn → K8s.lookupAnnot podAnn key = none →
       env.ns = .ok nsAnn → K8s.lookupAnnot nsAnn key = some v →
       (K8s.validateFwmark v = true → K8s.GetFwmark env key = .ok v)
       ∧ (K8s.validateFwmark v = false →
            K8s.GetFwmark env key = .error (.invalidNsFwmark v)))
    ∧ (∀ podAnn nsAnn, env.pod = .ok podAnn → K8s.lookupAnnot podAnn key = none →
       env.ns = .ok nsAnn → K8s.lookupAnnot nsAnn key = none →
       K8s.GetFwmark env key = .ok "")
    ∧ (env.pod = .notFound → K8s.GetFwmark env key = .error .podNotFound)
    ∧ (env.pod = .failed → K8s.GetFwmark env key = .error .podGetFailed)
    ∧ (∀ podAnn, env.pod = .ok podAnn → K8s.lookupAnnot podAnn key = none →
       (env.ns = .notFound → K8s.GetFwmark env key = .error .nsNotFound)
       ∧ (env.ns = .failed → K8s.GetFwmark env key = .error .nsGetFailed)) := by
  refine ⟨?_, ?_, ?_, ?_, ?_, ?_⟩
  · intro podAnn v hpod hkey
    constructor <;> intro hv <;> simp [K8s.GetFwmark, hpod, hkey, hv]
  · intro podAnn nsAnn v hpod hkey hns hnskey
    constructor <;> intro hv <;> simp [K8s.GetFwmark, hpod, hkey, hns, hnskey, hv]
  · intro podAnn nsAnn hpod hkey hns hnskey
    simp [K8s.GetFwmark, hpod, hkey, hns, hnskey]
  · intro hpod
    simp [K8s.GetFwmark, hpod]
  · intro hpod
    simp [K8s.GetFwmark, hpod]
  · intro podAnn hpod hkey
    constructor <;> intro hns <;> simp [K8s.GetFwmark, hpod, hkey, hns]

/-- Witness for C9: a pod without the tag annotation in a namespace
carrying `0x20` resolves to the namespace's value. -/
theorem getFwmark_resolution_witness :
    K8s.GetFwmark ⟨.ok [("other", "x")], .ok [("tenant.routing/fwmark", "0x20")]⟩
      "tenant.routing/fwmark" = .ok "0x20" :=
  ((getFwmark_resolution ⟨.ok [("other", "x")], .ok [("tenant.routing/fwmark", "0x20")]⟩
      "tenant.routing/fwmark").2.1
    [("other", "x")] [("tenant.routing/fwmark", "0x20")] "0x20"
    rfl (by decide) rfl (by decide)).1 (by decide)

/-- The extraction contract's scan, written from the spec's words ("return
the first entry whose value parses as the narrower address family, skipping
any malformed or family-mismatched entries") for comparison with the
source's loop: the first list entry that is non-nil and IPv4. -/
def firstIPv4 (ips : List (Option NetIP)) : Option NetIP :=
  ips.findSome? (fun entry =>
    entry.bind (fun ip => if (ipTo4 ip).isSome then some ip else none))

/-- The source's scan loop agrees with the spec-side first-IPv4 search. -/
lemma scanIPv4_eq_firstIPv4 (ips : List (Option NetIP)) :
    scanIPv4 ips =
      match firstIPv4 ips with
      | some ip => .ok ip
      | none => .error .noIPv4 := by
  induction ips with
  | nil => rfl
  | cons e rest ih =>
    cases e with
    | none =>
      simpa [scanIPv4, firstIPv4] using ih
    | some ip =>
      cases hto : ipTo4 ip with
      | none =>
        simp only [scanIPv4, hto]
        simpa [firstIPv4, hto] using ih
      | some ip4 =>
        simp [scanIPv4, firstIPv4, hto]

/-- C10: `ExtractPodIP` fails on a nil result; fails with the distinct
unsupported-type error on an unknown payload shape; on either known shape
it returns the first non-nil IPv4 entry of the list, fails with the
distinct no-IPv4 error when the non-empty list has no such entry, and fails
with the distinct no-IP-addresses error when the list is empty; the four
errors are pairwise distinct. -/
theorem extractPodIP_contract :
    (ExtractPodIP none = .error .nilResult)
    ∧ (ExtractPodIP (some .other) = .error .unsupportedType)
    ∧ (∀ ips, ips = [] →
        ExtractPodIP (some (.r100 ips)) = .error .noIPs
        ∧ ExtractPodIP (some (.r040 ips)) = .error .noIPs)
    ∧ (∀ ips ip, firstIPv4 ips = some ip →
        ExtractPodIP (some (.r100 ips)) = .ok ip
        ∧ ExtractPodIP (some (.r040 ips)) = .ok ip)
    ∧ (∀ ips, ips ≠ [] → firstIPv4 ips = none →
        ExtractPodIP (some (.r100 ips)) = .error .noIPv4
        ∧ ExtractPodIP (some (.r040 ips)) = .error .noIPv4)
    ∧ ((ExtractErr.nilResult ≠ .unsupportedType ∧ ExtractErr.nilResult ≠ .noIPs
        ∧ ExtractErr.nilResult ≠ .noIPv4) ∧ (ExtractErr.unsupportedType ≠ .noIPs
        ∧ ExtractErr.unsupportedType ≠ .noIPv4) ∧ ExtractErr.noIPs ≠ .noIPv4) := by
  refine ⟨rfl, rfl, ?_, ?_, ?_, by decide⟩
  · rintro ips rfl
    exact ⟨rfl, rfl⟩
  · intro ips ip hfirst
    have hne : ips ≠ [] := by
      rintro rfl
      simp [firstIPv4] at hfirst
    have hlen : ¬ ips.length = 0 := by
      simpa [List.length_eq_zero] using hne
    have hscan : scanIPv4 ips = .ok ip := by
      rw [scanIPv4_eq_firstIPv4, hfirst]
    constructor <;>
      simp [ExtractPodIP, extractIPv4FromResult100, extractIPv4FromResult040, hlen, hscan]
  · intro ips hne hfirst
    have hlen : ¬ ips.length = 0 := by
      simpa [List.length_eq_zero] using hne
    have hscan : scanIPv4 ips = .error .noIPv4 := by
      rw [scanIPv4_eq_firstIPv4, hfirst]
    constructor <;>
      simp [ExtractPodIP, extractIPv4FromResult100, extractIPv4FromResult040, hlen, hscan]

/-- Witness for C10: a result carrying only an IPv6 address (a 16-byte
value outside the IPv4-in-IPv6 range) yields the no-IPv4 error, and one
carrying an empty list yields the distinct no-IP-addresses error. -/
theorem extractPodIP_contract_witness :
    firstIPv4 [some [0x20, 0x01, 0x0d, 0xb8, 0, 0, 0, 0, 0, 0, 0, 0, 0, 0, 0, 1]] = none ∧
    ExtractPodIP (some (.r100 [some [0x20, 0x01, 0x0d, 0xb8, 0, 0, 0, 0, 0, 0, 0, 0, 0, 0, 0, 1]])) =
      .error .noIPv4 ∧
    ExtractPodIP (some (.r100 [])) = .error .noIPs :=
  ⟨by decide,
   (extractPodIP_contract.2.2.2.2.1
      [some [0x20, 0x01, 0x0d, 0xb8, 0, 0, 0, 0, 0, 0, 0, 0, 0, 0, 0, 1]]
      (by decide) (by decide)).1,
   (extractPodIP_contract.2.2.1 [] rfl).1⟩

end CniWrapper